import Mathlib

/-
Verification of the gen-iter crate: two adapters turning a suspendable
coroutine into a pull-based iterator.

Embedding: a coroutine is modelled as a deterministic step function
on an explicit state type S.  The Rust call
Pin::new(&mut g).resume(()) becomes c.resume s, returning the
CoroutineState outcome together with the successor state.
-/

namespace GenIterVerif

/-- Outcome of one resume call: the coroutine either yields a value or
completes with its return value.  Mirrors core::ops::CoroutineState. -/
inductive CoroutineState (Y R : Type) where
  | Yielded (y : Y)
  | Complete (r : R)

/-- A suspendable computation: an explicit-state step function.  The Rust
coroutine mutates itself on resume; here the mutation is the returned
successor state. -/
structure Coroutine (S Y R : Type) where
  resume : S → CoroutineState Y R × S

/-- Mirrors pub struct GenIter of src/gen_iter.rs: it holds only the
coroutine (here: the coroutine state; the step function is passed
separately since it is immutable). -/
structure GenIter (S : Type) where
  state : S

/-- Mirrors the Iterator impl for GenIter (src/gen_iter.rs lines 40 to 45):
resume the held coroutine; Yielded n gives Some n, Complete gives None.
No completion flag is kept. -/
def GenIter.next {S Y : Type} (c : Coroutine S Y Unit) (g : GenIter S) :
    Option Y × GenIter S :=
  match c.resume g.state with
  | (CoroutineState.Yielded n, s) => (some n, ⟨s⟩)
  | (CoroutineState.Complete _, s) => (none, ⟨s⟩)

/-- Repeatedly advance a GenIter, collecting the n outputs in order
together with the final adapter. -/
def GenIter.drain {S Y : Type} (c : Coroutine S Y Unit) :
    GenIter S → Nat → List (Option Y) × GenIter S
  | g, 0 => ([], g)
  | g, n + 1 =>
    let p := GenIter.next c g
    let q := GenIter.drain c p.2 n
    (p.1 :: q.1, q.2)

/-- Mirrors pub struct GenIterReturn of src/gen_iter_return.rs: a
Result holding either the return value (Ok, the Finished state) or the
coroutine (Err, the Running state). -/
structure GenIterReturn (S R : Type) where
  val : Except S R

/-- Mirrors GenIterReturn::new (src/gen_iter_return.rs lines 20 to 23):
wrap the coroutine in the Err (Running) side. -/
def GenIterReturn.new {S R : Type} (g : S) : GenIterReturn S R :=
  ⟨Except.error g⟩

/-- Mirrors GenIterReturn::is_done (lines 26 to 28): self.0.is_ok(). -/
def GenIterReturn.is_done {S R : Type} (g : GenIterReturn S R) : Bool :=
  match g.val with
  | Except.ok _ => true
  | Except.error _ => false

/-- Mirrors GenIterReturn::return_or_self (lines 31 to 36): Ok r when
finished, otherwise Err self, handing back the unchanged adapter. -/
def GenIterReturn.return_or_self {S R : Type} (g : GenIterReturn S R) :
    Except (GenIterReturn S R) R :=
  match g.val with
  | Except.ok r => Except.ok r
  | Except.error _ => Except.error g

/-- Mirrors the Iterator impl for mutable references to GenIterReturn
(lines 53 to 64): when finished return None without resuming; when
running, resume once; a yield keeps the Running side with the mutated
coroutine, completion stores Ok r and returns None. -/
def GenIterReturn.next {S Y R : Type} (c : Coroutine S Y R)
    (g : GenIterReturn S R) : Option Y × GenIterReturn S R :=
  match g.val with
  | Except.ok _ => (none, g)
  | Except.error s =>
    match c.resume s with
    | (CoroutineState.Yielded y, s2) => (some y, ⟨Except.error s2⟩)
    | (CoroutineState.Complete r, _) => (none, ⟨Except.ok r⟩)

/-- Mirrors the From impl for GenIterReturn (lines 70 to 75): defers to
GenIterReturn::new.  Named fromCoroutine because from is reserved. -/
def GenIterReturn.fromCoroutine {S R : Type} (g : S) : GenIterReturn S R :=
  GenIterReturn.new g

/-- Apply GenIterReturn.next n times, keeping only the adapter. -/
def GenIterReturn.iterNext {S Y R : Type} (c : Coroutine S Y R) :
    Nat → GenIterReturn S R → GenIterReturn S R
  | 0, g => g
  | n + 1, g => GenIterReturn.iterNext c n (GenIterReturn.next c g).2

/-- Repeatedly advance a GenIterReturn, collecting the n outputs in
order together with the final adapter. -/
def GenIterReturn.drain {S Y R : Type} (c : Coroutine S Y R) :
    GenIterReturn S R → Nat → List (Option Y) × GenIterReturn S R
  | g, 0 => ([], g)
  | g, n + 1 =>
    let p := GenIterReturn.next c g
    let q := GenIterReturn.drain c p.2 n
    (p.1 :: q.1, q.2)

/-- The coroutine from state s yields the values ys in order and then
completes with r.  This is the specification-side description of a run
of a computation. -/
inductive Yields {S Y R : Type} (c : Coroutine S Y R) : S → List Y → R → Prop where
  | complete (s s2 : S) (r : R) :
      c.resume s = (CoroutineState.Complete r, s2) → Yields c s [] r
  | yielded (s s2 : S) (y : Y) (ys : List Y) (r : R) :
      c.resume s = (CoroutineState.Yielded y, s2) → Yields c s2 ys r →
      Yields c s (y :: ys) r

/-- Instrument a coroutine with a resume counter carried in the state:
every resume call increments it by one.  Used to make resume calls
observable. -/
def instrument {S Y R : Type} (c : Coroutine S Y R) : Coroutine (S × Nat) Y R :=
  ⟨fun p =>
    match c.resume p.1 with
    | (o, s) => (o, (s, p.2 + 1))⟩

/-- Instrument a coroutine with a resume counter carried both in the
state and in the final return value, so the count of resume calls
survives completion. -/
def counted {S Y R : Type} (c : Coroutine S Y R) :
    Coroutine (S × Nat) Y (R × Nat) :=
  ⟨fun p =>
    match c.resume p.1 with
    | (CoroutineState.Yielded y, s) => (CoroutineState.Yielded y, (s, p.2 + 1))
    | (CoroutineState.Complete r, s) =>
      (CoroutineState.Complete (r, p.2 + 1), (s, p.2 + 1))⟩

/-- A concrete coroutine used in witnesses: it yields the elements of a
list one by one and then completes with r. -/
def listCoroutine {Y R : Type} (r : R) : Coroutine (List Y) Y R :=
  ⟨fun s =>
    match s with
    | [] => (CoroutineState.Complete r, [])
    | y :: ys => (CoroutineState.Yielded y, ys)⟩

lemma next_of_done {S Y R : Type} (c : Coroutine S Y R) (g : GenIterReturn S R)
    (h : g.is_done = true) : GenIterReturn.next c g = (none, g) := by
  obtain ⟨v⟩ := g
  cases v with
  | ok r => rfl
  | error s => exact Bool.noConfusion h

lemma done_exists_ok {S R : Type} (g : GenIterReturn S R) (h : g.is_done = true) :
    ∃ r, g = ⟨Except.ok r⟩ := by
  obtain ⟨v⟩ := g
  cases v with
  | ok r => exact ⟨r, rfl⟩
  | error s => exact Bool.noConfusion h

lemma drain_of_done {S Y R : Type} (c : Coroutine S Y R) (g : GenIterReturn S R)
    (h : g.is_done = true) (n : Nat) :
    GenIterReturn.drain c g n = (List.replicate n none, g) := by
  induction n with
  | zero => simp [GenIterReturn.drain]
  | succ n ih =>
    simp [GenIterReturn.drain, next_of_done c g h, ih, List.replicate_succ]

lemma iterNext_of_done {S Y R : Type} (c : Coroutine S Y R) (n : Nat)
    (g : GenIterReturn S R) (h : g.is_done = true) :
    GenIterReturn.iterNext c n g = g := by
  induction n with
  | zero => rfl
  | succ n ih => simp [GenIterReturn.iterNext, next_of_done c g h, ih]

lemma genIter_drain_succ {S Y : Type} (c : Coroutine S Y Unit) (g : GenIter S)
    (n : Nat) :
    GenIter.drain c g (n + 1) =
      ((GenIter.next c g).1 :: (GenIter.drain c (GenIter.next c g).2 n).1,
        (GenIter.drain c (GenIter.next c g).2 n).2) := rfl

lemma genIterReturn_drain_succ {S Y R : Type} (c : Coroutine S Y R)
    (g : GenIterReturn S R) (n : Nat) :
    GenIterReturn.drain c g (n + 1) =
      ((GenIterReturn.next c g).1 ::
          (GenIterReturn.drain c (GenIterReturn.next c g).2 n).1,
        (GenIterReturn.drain c (GenIterReturn.next c g).2 n).2) := rfl

lemma genIter_drain_of_yields {S Y : Type} (c : Coroutine S Y Unit) (s : S)
    (ys : List Y) (u : Unit) (h : Yields c s ys u) :
    (GenIter.drain c ⟨s⟩ (ys.length + 1)).1 = ys.map some ++ [none] := by
  induction h with
  | complete s s2 r hr => simp [GenIter.drain, GenIter.next, hr]
  | yielded s s2 y ys r hy hys ih =>
    have hnext : GenIter.next c ⟨s⟩ = (some y, (⟨s2⟩ : GenIter S)) := by
      simp [GenIter.next, hy]
    show (GenIter.drain c ⟨s⟩ (ys.length + 1 + 1)).1 =
      some y :: (ys.map some ++ [none])
    rw [genIter_drain_succ, hnext]
    simpa using ih

lemma genIterReturn_drain_of_yields {S Y R : Type} (c : Coroutine S Y R) (s : S)
    (ys : List Y) (r : R) (h : Yields c s ys r) :
    GenIterReturn.drain c (GenIterReturn.new s) (ys.length + 1) =
      (ys.map some ++ [none], ⟨Except.ok r⟩) := by
  induction h with
  | complete s s2 r hr =>
    simp [GenIterReturn.drain, GenIterReturn.next, GenIterReturn.new, hr]
  | yielded s s2 y ys r hy hys ih =>
    have hnext : GenIterReturn.next c (GenIterReturn.new s) =
        (some y, GenIterReturn.new s2) := by
      simp [GenIterReturn.next, GenIterReturn.new, hy]
    show GenIterReturn.drain c (GenIterReturn.new s) (ys.length + 1 + 1) =
      (some y :: (ys.map some ++ [none]), ⟨Except.ok r⟩)
    rw [genIterReturn_drain_succ, hnext]
    simp [ih]

lemma yieldsExample : Yields (listCoroutine 7) [1, 2] [1, 2] 7 :=
  Yields.yielded [1, 2] [2] 1 [2] 7 rfl
    (Yields.yielded [2] [] 2 [] 7 rfl
      (Yields.complete [] [] 7 rfl))

lemma yieldsUnitExample : Yields (listCoroutine ()) [1, 2] [1, 2] () :=
  Yields.yielded [1, 2] [2] 1 [2] () rfl
    (Yields.yielded [2] [] 2 [] () rfl
      (Yields.complete [] [] () rfl))

/-- Claim C1: for every coroutine that yields y1, y2, ..., yn and then
completes, draining either adapter by repeated advance calls produces
exactly some y1, ..., some yn in that order, followed by none. -/
theorem claim1_order_preservation {S T Y R : Type}
    (c : Coroutine S Y Unit) (s : S) (ys : List Y) (u : Unit)
    (h : Yields c s ys u)
    (d : Coroutine T Y R) (t : T) (zs : List Y) (r : R)
    (h2 : Yields d t zs r) :
    (GenIter.drain c ⟨s⟩ (ys.length + 1)).1 = ys.map some ++ [none] ∧
    (GenIterReturn.drain d (GenIterReturn.new t) (zs.length + 1)).1 =
      zs.map some ++ [none] := by
  refine ⟨genIter_drain_of_yields c s ys u h, ?_⟩
  rw [genIterReturn_drain_of_yields d t zs r h2]

theorem claim1_witness :
    (GenIter.drain (listCoroutine ()) ⟨[1, 2]⟩ 3).1 =
      [some 1, some 2, none] ∧
    (GenIterReturn.drain (listCoroutine 7) (GenIterReturn.new [1, 2]) 3).1 =
      [some 1, some 2, none] := by
  have h := claim1_order_preservation (listCoroutine ()) [1, 2] [1, 2] ()
    yieldsUnitExample (listCoroutine 7) [1, 2] [1, 2] 7 yieldsExample
  simpa using h

/-- Claim C2: once a GenIterReturn adapter is in the Finished state, every
further next call on the borrowed handle returns none and the adapter is
left unchanged, for any number of calls; the outcome does not depend on
the coroutine step function at all, so no resume call is issued. -/
theorem claim2_fused_safety {S Y R : Type} (c : Coroutine S Y R)
    (g : GenIterReturn S R) (h : g.is_done = true) (n : Nat) :
    GenIterReturn.drain c g n = (List.replicate n none, g) ∧
    ∀ d : Coroutine S Y R, GenIterReturn.drain d g n =
      GenIterReturn.drain c g n := by
  refine ⟨drain_of_done c g h n, fun d => ?_⟩
  rw [drain_of_done c g h n, drain_of_done d g h n]

theorem claim2_witness :
    GenIterReturn.drain (listCoroutine 7)
        (⟨Except.ok 5⟩ : GenIterReturn (List Nat) Nat) 3 =
      (List.replicate 3 none, ⟨Except.ok 5⟩) :=
  (claim2_fused_safety (listCoroutine 7) ⟨Except.ok 5⟩ rfl 3).1

/-- Claim C3: for an adapter in the Running state, next resumes the
coroutine exactly once (the resume counter of the counted coroutine rises
from k to k + 1); a yield keeps the Running state and returns some y, a
completion with r moves to the Finished state holding r and returns
none. -/
theorem claim3_running_step {S Y R : Type} (c : Coroutine S Y R) (s : S)
    (k : Nat) :
    (∀ y s2, c.resume s = (CoroutineState.Yielded y, s2) →
      GenIterReturn.next (counted c) ⟨Except.error (s, k)⟩ =
        (some y, ⟨Except.error (s2, k + 1)⟩)) ∧
    (∀ r s2, c.resume s = (CoroutineState.Complete r, s2) →
      GenIterReturn.next (counted c) ⟨Except.error (s, k)⟩ =
        (none, ⟨Except.ok (r, k + 1)⟩)) := by
  constructor
  · intro y s2 hy
    simp [GenIterReturn.next, counted, hy]
  · intro r s2 hr
    simp [GenIterReturn.next, counted, hr]

theorem claim3_witness :
    GenIterReturn.next (counted (listCoroutine 7))
        (⟨Except.error ([1, 2], 0)⟩ :
          GenIterReturn (List Nat × Nat) (Nat × Nat)) =
      (some 1, ⟨Except.error ([2], 1)⟩) ∧
    GenIterReturn.next (counted (listCoroutine 7))
        (⟨Except.error ([], 5)⟩ :
          GenIterReturn (List Nat × Nat) (Nat × Nat)) =
      (none, ⟨Except.ok (7, 6)⟩) :=
  ⟨(claim3_running_step (listCoroutine 7) [1, 2] 0).1 1 [2] rfl,
   (claim3_running_step (listCoroutine 7) [] 5).2 7 [] rfl⟩

/-- Claim C4: return_or_self gives back the unchanged adapter inside Err
whenever is_done is false, and after the coroutine has completed with r
(reached by draining the adapter) it returns Ok carrying that same r. -/
theorem claim4_result_exchange {S Y R : Type} (c : Coroutine S Y R)
    (g : GenIterReturn S R) (s : S) (ys : List Y) (r : R) :
    (g.is_done = false → GenIterReturn.return_or_self g = Except.error g) ∧
    (Yields c s ys r →
      GenIterReturn.return_or_self
          ((GenIterReturn.drain c (GenIterReturn.new s) (ys.length + 1)).2) =
        Except.ok r) := by
  constructor
  · intro h
    obtain ⟨v⟩ := g
    cases v with
    | ok x => exact Bool.noConfusion h
    | error x => rfl
  · intro h
    rw [genIterReturn_drain_of_yields c s ys r h]
    rfl

theorem claim4_witness :
    GenIterReturn.return_or_self
        (GenIterReturn.new (R := Nat) [1, 2]) =
      Except.error (GenIterReturn.new [1, 2]) ∧
    GenIterReturn.return_or_self
        ((GenIterReturn.drain (listCoroutine 7)
          (GenIterReturn.new [1, 2]) 3).2) = Except.ok 7 :=
  ⟨(claim4_result_exchange (listCoroutine 7) (GenIterReturn.new [1, 2])
      [1, 2] [1, 2] 7).1 rfl,
   (claim4_result_exchange (listCoroutine 7) (GenIterReturn.new [1, 2])
      [1, 2] [1, 2] 7).2 yieldsExample⟩

/-- Claim C5: the Running to Finished transition is irreversible: once
is_done is true it stays true after any number of next calls, and
return_or_self never hands an adapter back (never takes the Err branch)
from the Finished state, so no operation sequence reaches Running
again. -/
theorem claim5_irreversible {S Y R : Type} (c : Coroutine S Y R)
    (g : GenIterReturn S R) (h : g.is_done = true) (n : Nat) :
    (GenIterReturn.iterNext c n g).is_done = true ∧
    ∀ g2, GenIterReturn.return_or_self (GenIterReturn.iterNext c n g) ≠
      Except.error g2 := by
  obtain ⟨r, rfl⟩ := done_exists_ok g h
  rw [iterNext_of_done c n (GenIterReturn.mk (Except.ok r)) rfl]
  exact ⟨rfl, fun g2 hcontra => Except.noConfusion hcontra⟩

theorem claim5_witness :
    (GenIterReturn.iterNext (listCoroutine 7) 4
        (⟨Except.ok 5⟩ : GenIterReturn (List Nat) Nat)).is_done = true :=
  (claim5_irreversible (listCoroutine 7) ⟨Except.ok 5⟩ rfl 4).1

/-- Claim C6: each GenIter next call resumes the held coroutine with a
unit input exactly once (counter k to k + 1): a yield of y returns
some y, a completion returns none with the unit return value
discarded. -/
theorem claim6_next_step {S Y : Type} (c : Coroutine S Y Unit) (s : S)
    (k : Nat) :
    (∀ y s2, c.resume s = (CoroutineState.Yielded y, s2) →
      GenIter.next (instrument c) ⟨(s, k)⟩ = (some y, ⟨(s2, k + 1)⟩)) ∧
    (∀ s2, c.resume s = (CoroutineState.Complete (), s2) →
      GenIter.next (instrument c) ⟨(s, k)⟩ = (none, ⟨(s2, k + 1)⟩)) := by
  constructor
  · intro y s2 hy
    simp [GenIter.next, instrument, hy]
  · intro s2 hr
    simp [GenIter.next, instrument, hr]

theorem claim6_witness :
    GenIter.next (instrument (listCoroutine ()))
        (⟨([1, 2], 0)⟩ : GenIter (List Nat × Nat)) = (some 1, ⟨([2], 1)⟩) ∧
    GenIter.next (instrument (listCoroutine ()))
        (⟨([], 9)⟩ : GenIter (List Nat × Nat)) = (none, ⟨([], 10)⟩) :=
  ⟨(claim6_next_step (listCoroutine ()) [1, 2] 0).1 1 [2] rfl,
   (claim6_next_step (listCoroutine ()) [] 9).2 [] rfl⟩

/-- Claim C7: GenIter keeps no completion record: draining n times from
any state, including states reached after the coroutine already
completed, issues exactly n resume calls (the counter rises from k to
k + n unconditionally), so a next call made after a prior none resumes
the already completed coroutine; there is no guard. -/
theorem claim7_unconditional_resume {S Y : Type} (c : Coroutine S Y Unit)
    (s : S) (k n : Nat) :
    ((GenIter.drain (instrument c) ⟨(s, k)⟩ n).2).state.2 = k + n := by
  induction n generalizing s k with
  | zero => rfl
  | succ n ih =>
    cases hc : c.resume s with
    | mk o s1 =>
      cases o with
      | Yielded y =>
        have hnext : GenIter.next (instrument c) ⟨(s, k)⟩ =
            (some y, ⟨(s1, k + 1)⟩) := by
          simp [GenIter.next, instrument, hc]
        rw [genIter_drain_succ, hnext]
        show ((GenIter.drain (instrument c) ⟨(s1, k + 1)⟩ n).2).state.2 =
          k + (n + 1)
        rw [ih]
        omega
      | Complete u =>
        have hnext : GenIter.next (instrument c) ⟨(s, k)⟩ =
            (none, ⟨(s1, k + 1)⟩) := by
          simp [GenIter.next, instrument, hc]
        rw [genIter_drain_succ, hnext]
        show ((GenIter.drain (instrument c) ⟨(s1, k + 1)⟩ n).2).state.2 =
          k + (n + 1)
        rw [ih]
        omega

/-- Claim C8: once the adapter holds the Finished value r, any number of
further next calls leaves it intact: return_or_self still returns Ok with
the same r. -/
theorem claim8_result_persists {S Y R : Type} (c : Coroutine S Y R) (r : R)
    (n : Nat) :
    GenIterReturn.return_or_self
        (GenIterReturn.iterNext c n (⟨Except.ok r⟩ : GenIterReturn S R)) =
      Except.ok r := by
  rw [iterNext_of_done c n (GenIterReturn.mk (Except.ok r)) rfl]
  rfl

/-- Claim C9: a return_or_self call that takes the Err branch hands back
the adapter exactly as it was; neither it nor is_done takes the coroutine
step function as input, so neither can issue a resume call or change the
state: next is the only mutating operation. -/
theorem claim9_frame {S R : Type} (g : GenIterReturn S R)
    (h : g.is_done = false) :
    GenIterReturn.return_or_self g = Except.error g := by
  obtain ⟨v⟩ := g
  cases v with
  | ok x => exact Bool.noConfusion h
  | error x => rfl

theorem claim9_witness :
    GenIterReturn.return_or_self
        (⟨Except.error [1, 2]⟩ : GenIterReturn (List Nat) Nat) =
      Except.error ⟨Except.error [1, 2]⟩ :=
  claim9_frame ⟨Except.error [1, 2]⟩ rfl

/-- Claim C10: constructing a GenIterReturn, via new or via the From
conversion, yields an adapter in the Running state: is_done is false and
return_or_self returns Err with the adapter unchanged. -/
theorem claim10_starts_running {S R : Type} (s : S) :
    (GenIterReturn.new (R := R) s).is_done = false ∧
    GenIterReturn.return_or_self (GenIterReturn.new (R := R) s) =
      Except.error (GenIterReturn.new s) ∧
    GenIterReturn.fromCoroutine (R := R) s = GenIterReturn.new s :=
  ⟨rfl, rfl, rfl⟩

end GenIterVerif
